import Mathlib

/-!
Shallow embedding of the order/trade reconciliation logic of the vnpy_uf /
vnpy_ufx execution gateways (src/vnpy_uf/gateway/uf_gateway.py and
src/vnpy_ufx/gateway/ufx_gateway.py).

Wire rows are decoded by `unpack_data` into mappings from column name to
string value; the handlers read a fixed set of columns.  A `Row` record
carries those columns (numeric amount columns are carried already parsed,
mirroring the `int(float(...))` conversions the handlers perform; columns on
which the handlers do no arithmetic, such as prices, are carried as raw wire
strings).  The single schema-presence test the code performs, namely
`"init_date" not in data[-1].keys()`, is carried as the boolean field
`has_init_date`.

Python exceptions raised by direct dictionary indexing (`KeyError`) or by
indexing an empty list (`IndexError`) are embedded as the `.error` case of
`Except String`.  Handlers that cannot raise return plain pairs.  Emitted
gateway events (`on_order`, `on_trade`, `write_log`, outbound follow-up
calls) are collected in an `Event` list, in emission order.
-/

/-- Canonical order status domain (vnpy `Status` values used by the gateway). -/
inductive Status where
  | submitting
  | notTraded
  | partTraded
  | cancelled
  | allTraded
  | rejected
deriving Repr, DecidableEq

/-- STATUS_UF2VT lookup with the `.get(code, Status.SUBMITTING)` default, as in
uf_gateway.py lines 63-74 (identical table in ufx_gateway.py lines 64-75). -/
def STATUS_UF2VT (code : String) : Status :=
  if code = "0" ∨ code = "1" then Status.submitting
  else if code = "2" ∨ code = "3" then Status.notTraded
  else if code = "4" ∨ code = "7" then Status.partTraded
  else if code = "5" ∨ code = "6" then Status.cancelled
  else if code = "8" then Status.allTraded
  else if code = "9" then Status.rejected
  else Status.submitting

/-- A decoded reply/push row: the columns the embedded handlers read.
Amount columns carry the result of the `int(float(...))` parse. -/
structure Row where
  error_no : String := ""
  error_info : String := ""
  client_id : String := ""
  session_no : String := ""
  user_token : String := ""
  entrust_reference : String := ""
  entrust_no : String := ""
  entrust_type : String := ""
  entrust_status : String := ""
  entrust_amount : Nat := 0
  business_amount : Nat := 0
  business_id : String := ""
  business_price : String := ""
  real_type : String := ""
  real_status : String := ""
  report_time : String := ""
  stock_code : String := ""
  exchange_type : String := ""
  entrust_bs : String := ""
  entrust_prop : String := ""
  entrust_price : String := ""
  has_init_date : Bool := false
deriving Repr, DecidableEq

/-- The canonical order record kept in `self.orders` (vnpy `OrderData`,
restricted to the fields the gateway writes; enumeration-valued wire columns
and the price are carried as their wire strings since no arithmetic is done
on them). -/
structure OrderData where
  orderid : String := ""
  stock_code : String := ""
  exchange_type : String := ""
  entrust_bs : String := ""
  entrust_prop : String := ""
  entrust_price : String := ""
  volume : Nat := 0
  traded : Nat := 0
  status : Status := Status.submitting
deriving Repr, DecidableEq

/-- Modelled from the spec: `OrderData.is_active` is vnpy framework code (not
under src/).  Per the status domain of spec section 4.4, `Submitting`,
`NotTraded` and `PartTraded` are active and `AllTraded`, `Cancelled`,
`Rejected` are terminal. -/
def OrderData.is_active (o : OrderData) : Bool :=
  match o.status with
  | Status.submitting => true
  | Status.notTraded => true
  | Status.partTraded => true
  | Status.cancelled => false
  | Status.allTraded => false
  | Status.rejected => false

/-- A trade record (vnpy `TradeData`, restricted to the fields the gateway
writes; the fill price is carried as its wire string). -/
structure TradeData where
  orderid : String := ""
  tradeid : String := ""
  stock_code : String := ""
  exchange_type : String := ""
  entrust_bs : String := ""
  price : String := ""
  volume : Nat := 0
deriving Repr, DecidableEq

/-- Observable effects emitted by the handlers: `gateway.on_order`,
`gateway.on_trade`, `gateway.write_log`, and outbound follow-up calls
(subscriptions and queries), in emission order. -/
inductive Event where
  | order (o : OrderData)
  | trade (t : TradeData)
  | log (msg : String)
  | action (name : String)
deriving Repr, DecidableEq

/-- Python-dict lookup on an association list (insertion ordered). -/
def dictGet? {κ α : Type} [DecidableEq κ] : List (κ × α) → κ → Option α
  | [], _ => none
  | (k0, v0) :: rest, k => if k0 = k then some v0 else dictGet? rest k

/-- Python-dict assignment: replace in place when the key exists, append
otherwise. -/
def dictInsert {κ α : Type} [DecidableEq κ] : List (κ × α) → κ → α → List (κ × α)
  | [], k, v => [(k, v)]
  | (k0, v0) :: rest, k, v =>
    if k0 = k then (k, v) :: rest else (k0, v0) :: dictInsert rest k v

/-- The mutable run-time caches of `TdApi` that the embedded handlers touch. -/
structure TdState where
  login_status : Bool := false
  user_token : String := ""
  client_id : String := ""
  session_no : String := ""
  order_count : Nat := 0
  orders : List (String × OrderData) := []
  reqid_orderid_map : List (Nat × String) := []
  tradeids : List String := []
  localid_sysid_map : List (String × String) := []
  sysid_localid_map : List (String × String) := []
  reqid_sysid_map : List (Nat × String) := []
deriving Repr, DecidableEq

/-- The log line `check_error` writes for a venue-reported business error. -/
def error_log_msg (d : Row) : String :=
  "request failed, code " ++ d.error_no ++ ", info " ++ d.error_info

namespace UF

/-- TdApi.check_error (uf_gateway.py lines 410-425): inspects the first row;
an `error_no` column that is non-empty and not the string "0" signals a venue
error and is logged.  Returns the flag together with the emitted log. -/
def check_error (data : List Row) : Bool × List Event :=
  match data with
  | [] => (false, [])
  | d :: _ =>
    if d.error_no ≠ "" then
      if d.error_no = "0" then (false, [])
      else (true, [Event.log (error_log_msg d)])
    else (false, [])

/-- TdApi.on_login (uf_gateway.py lines 427-444).  Note that the error branch
only logs and falls through: `login_status` is set and the follow-up
subscriptions and queries are issued unconditionally. -/
def on_login (s : TdState) (data : List Row) : TdState × List Event :=
  let c := check_error data
  let evs1 := c.2 ++ (if c.1 then [Event.log "UF login failed"] else [])
  let evs2 := evs1 ++ [Event.log "UF login success"]
  let s1 := { s with login_status := true }
  let s2 := data.foldl
    (fun st d =>
      { st with client_id := d.client_id, session_no := d.session_no,
                user_token := d.user_token }) s1
  (s2, evs2 ++ [Event.action "subscribe_trade", Event.action "subscribe_order",
                Event.action "query_contract", Event.action "query_order"])

/-- TdApi.on_send_order (uf_gateway.py lines 571-586).  Direct dictionary
indexing (`self.reqid_orderid_map[reqid]`, `self.orders[orderid]`,
`data[0]`) raises on a missing entry, embedded as `.error`. -/
def on_send_order (s : TdState) (data : List Row) (reqid : Nat) :
    Except String (TdState × List Event) :=
  match dictGet? s.reqid_orderid_map reqid with
  | none => Except.error "KeyError: reqid_orderid_map"
  | some orderid =>
    let c := check_error data
    if c.1 then
      match dictGet? s.orders orderid with
      | none => Except.error "KeyError: orders"
      | some order =>
        let order := { order with status := Status.rejected }
        Except.ok ({ s with orders := dictInsert s.orders orderid order },
          c.2 ++ [Event.log "send order failed", Event.order order])
    else
      match data with
      | [] => Except.error "IndexError: empty reply"
      | d :: _ =>
        Except.ok ({ s with
          localid_sysid_map := dictInsert s.localid_sysid_map orderid d.entrust_no,
          sysid_localid_map := dictInsert s.sysid_localid_map d.entrust_no orderid },
          c.2)

/-- TdApi.on_cancel_order (uf_gateway.py lines 588-600).  The error branch
only logs and falls through: the order is forced to `Cancelled` whether or
not the reply carried an error. -/
def on_cancel_order (s : TdState) (data : List Row) (reqid : Nat) :
    Except String (TdState × List Event) :=
  match dictGet? s.reqid_sysid_map reqid with
  | none => Except.error "KeyError: reqid_sysid_map"
  | some sysid =>
    match dictGet? s.sysid_localid_map sysid with
    | none => Except.error "KeyError: sysid_localid_map"
    | some orderid =>
      let c := check_error data
      let evs := c.2 ++ (if c.1 then [Event.log ("cancel failed, entrust_no " ++ sysid)] else [])
      match dictGet? s.orders orderid with
      | none => Except.error "KeyError: orders"
      | some order =>
        let order := { order with status := Status.cancelled }
        Except.ok ({ s with orders := dictInsert s.orders orderid order },
          evs ++ [Event.order order])

/-- The `OrderData` built by TdApi.on_order from one push row
(uf_gateway.py lines 617-629). -/
def row_to_order (d : Row) : OrderData :=
  { orderid := d.entrust_reference
    stock_code := d.stock_code
    exchange_type := d.exchange_type
    entrust_bs := d.entrust_bs
    entrust_prop := d.entrust_prop
    entrust_price := d.entrust_price
    volume := d.entrust_amount
    traded := d.business_amount
    status := STATUS_UF2VT d.entrust_status }

/-- The delayed-push guard of TdApi.on_order (uf_gateway.py lines 613-614):
`last_order and not last_order.is_active()` — true when the row references a
locally known order that is no longer active. -/
def stale_guard (s : TdState) (d : Row) : Bool :=
  match dictGet? s.orders d.entrust_reference with
  | some last => ! last.is_active
  | none => false

/-- TdApi.on_order (uf_gateway.py lines 602-632), the order-push handler.
A row with `entrust_type == "2"` is skipped (`continue`); a row whose
`entrust_reference` is a known, no-longer-active order aborts the whole
remaining batch (`return`); otherwise the row overwrites the order table and
emits an order event. -/
def on_order : TdState → List Row → TdState × List Event
  | s, [] => (s, [])
  | s, d :: rest =>
    if d.entrust_type = "2" then on_order s rest
    else if stale_guard s d then (s, [])
    else
      let order := row_to_order d
      let r := on_order { s with orders := dictInsert s.orders d.entrust_reference order } rest
      (r.1, Event.order order :: r.2)

/-- The order-update tail of one TdApi.on_trade row (uf_gateway.py lines
662-672): a known owning order gets the status of the row, and, unless the
row is a cancel record, its traded counter incremented. -/
def trade_order_update (s : TdState) (d : Row) : TdState × List Event :=
  match dictGet? s.orders d.entrust_reference with
  | none => (s, [])
  | some order =>
    let order := { order with status := STATUS_UF2VT d.entrust_status }
    let order :=
      if d.real_type ≠ "2" then { order with traded := order.traded + d.business_amount }
      else order
    ({ s with orders := dictInsert s.orders d.entrust_reference order },
     [Event.order order])

/-- One row of TdApi.on_trade (uf_gateway.py lines 636-672).  Rows passing the
fill filter (`real_type != "2" and real_status != "2"`) go through the
tradeid de-duplication set; a duplicate id hits `continue`, which also skips
the order-update tail of the iteration. -/
def on_trade_row (s : TdState) (d : Row) : TdState × List Event :=
  if d.real_type ≠ "2" ∧ d.real_status ≠ "2" then
    if d.business_id ∈ s.tradeids then (s, [])
    else
      let trade : TradeData :=
        { orderid := d.entrust_reference
          tradeid := d.business_id
          stock_code := d.stock_code
          exchange_type := d.exchange_type
          entrust_bs := d.entrust_bs
          price := d.business_price
          volume := d.business_amount }
      let r := trade_order_update { s with tradeids := d.business_id :: s.tradeids } d
      (r.1, Event.trade trade :: r.2)
  else
    trade_order_update s d

/-- TdApi.on_trade (uf_gateway.py lines 634-672), the trade-push handler:
applies `on_trade_row` to each row in order. -/
def on_trade : TdState → List Row → TdState × List Event
  | s, [] => (s, [])
  | s, d :: rest =>
    let r1 := on_trade_row s d
    let r2 := on_trade r1.1 rest
    (r2.1, r1.2 ++ r2.2)

/-- The row loop of TdApi.on_query_trade (uf_gateway.py lines 501-524): the
reverse venue-id lookup `self.sysid_localid_map[d["entrust_no"]]` raises on a
missing entry; duplicate tradeids are skipped.  The order table is never
touched by the query handler. -/
def on_query_trade_rows (s : TdState) : List Row → Except String (TdState × List Event)
  | [] => Except.ok (s, [])
  | d :: rest =>
    match dictGet? s.sysid_localid_map d.entrust_no with
    | none => Except.error "KeyError: sysid_localid_map"
    | some orderid =>
      if d.business_id ∈ s.tradeids then on_query_trade_rows s rest
      else
        let trade : TradeData :=
          { orderid := orderid
            tradeid := d.business_id
            stock_code := d.stock_code
            exchange_type := d.exchange_type
            entrust_bs := d.entrust_bs
            price := d.business_price
            volume := d.business_amount }
        match on_query_trade_rows { s with tradeids := d.business_id :: s.tradeids } rest with
        | Except.error e => Except.error e
        | Except.ok r => Except.ok (r.1, Event.trade trade :: r.2)

/-- TdApi.on_query_trade (uf_gateway.py lines 495-526). -/
def on_query_trade (s : TdState) (data : List Row) :
    Except String (TdState × List Event) :=
  let c := check_error data
  if c.1 then Except.ok (s, c.2 ++ [Event.log "query trade failed"])
  else
    match on_query_trade_rows s data with
    | Except.error e => Except.error e
    | Except.ok r => Except.ok (r.1, c.2 ++ r.2 ++ [Event.log "query trade success"])

/-- The row loop of TdApi.on_query_order (uf_gateway.py lines 468-491): every
row whose `report_time` column differs from "0" overwrites the order table
with the snapshot row, records both directions of the local/venue id
mapping, and emits an order event; other rows are skipped. -/
def on_query_order_rows (s : TdState) : List Row → TdState × List Event
  | [] => (s, [])
  | d :: rest =>
    if d.report_time ≠ "0" then
      let order := row_to_order d
      let s1 := { s with
        orders := dictInsert s.orders d.entrust_reference order,
        localid_sysid_map := dictInsert s.localid_sysid_map d.entrust_reference d.entrust_no,
        sysid_localid_map := dictInsert s.sysid_localid_map d.entrust_no d.entrust_reference }
      let r := on_query_order_rows s1 rest
      (r.1, Event.order order :: r.2)
    else on_query_order_rows s rest

/-- TdApi.on_query_order (uf_gateway.py lines 462-493): the authoritative
order-query snapshot handler; after the rows a trade query is issued. -/
def on_query_order (s : TdState) (data : List Row) : TdState × List Event :=
  let c := check_error data
  if c.1 then (s, c.2 ++ [Event.log "query order failed"])
  else
    let r := on_query_order_rows s data
    (r.1, c.2 ++ r.2 ++ [Event.log "query order success", Event.action "query_trade"])

/-- TdApi.on_return (uf_gateway.py lines 674-679): the combined push function
code; `data[-1]` raises on an empty batch, otherwise the presence of the
`init_date` column in the last row routes the entire batch to the trade
handler, its absence to the order handler. -/
def on_return (s : TdState) (data : List Row) :
    Except String (TdState × List Event) :=
  match data.getLast? with
  | none => Except.error "IndexError: empty push batch"
  | some d =>
    if d.has_init_date then Except.ok (on_trade s data)
    else Except.ok (on_order s data)

end UF

namespace UFX

/-- TdApi.check_error (ufx_gateway.py lines 348-362).  The guard
`if error_no == 0` compares the string column with the integer 0, which is
always false in Python, so any non-empty `error_no` — including "0" — is
treated as an error. -/
def check_error (data : List Row) : Bool × List Event :=
  match data with
  | [] => (false, [])
  | d :: _ =>
    if d.error_no ≠ "" then (true, [Event.log (error_log_msg d)])
    else (false, [])

/-- TdApi.on_send_order (ufx_gateway.py lines 510-524).  On success only the
forward direction `localid_sysid_map[orderid] = entrust_no` is recorded; the
reverse map is not written. -/
def on_send_order (s : TdState) (data : List Row) (reqid : Nat) :
    Except String (TdState × List Event) :=
  match dictGet? s.reqid_orderid_map reqid with
  | none => Except.error "KeyError: reqid_orderid_map"
  | some orderid =>
    let c := check_error data
    if c.1 then
      match dictGet? s.orders orderid with
      | none => Except.error "KeyError: orders"
      | some order =>
        let order := { order with status := Status.rejected }
        Except.ok ({ s with orders := dictInsert s.orders orderid order },
          c.2 ++ [Event.log "send order failed", Event.order order])
    else
      match data with
      | [] => Except.error "IndexError: empty reply"
      | d :: _ =>
        Except.ok ({ s with
          localid_sysid_map := dictInsert s.localid_sysid_map orderid d.entrust_no },
          c.2)

end UFX

/-- The vnpy `Exchange` values a request may carry, as seen by the UF
mapping; `other` stands for any exchange outside the mapping table. -/
inductive ExchangeVT where
  | SSE
  | SZSE
  | other
deriving Repr, DecidableEq

/-- EXCHANGE_VT2UF (uf_gateway.py lines 42-46): membership doubles as the
supported-exchange check in `send_order`. -/
def EXCHANGE_VT2UF : ExchangeVT → Option String
  | ExchangeVT.SSE => some "1"
  | ExchangeVT.SZSE => some "2"
  | ExchangeVT.other => none

/-- vnpy `Direction` values. -/
inductive DirectionVT where
  | LONG
  | SHORT
deriving Repr, DecidableEq

/-- DIRECTION_VT2UF (uf_gateway.py lines 49-52). -/
def DIRECTION_VT2UF : DirectionVT → String
  | DirectionVT.LONG => "1"
  | DirectionVT.SHORT => "2"

/-- vnpy `OrderType` values the mapping table covers. -/
inductive OrderTypeVT where
  | LIMIT
  | MARKET
deriving Repr, DecidableEq

/-- ORDERTYPE_VT2UF (uf_gateway.py lines 56-59). -/
def ORDERTYPE_VT2UF : OrderTypeVT → String
  | OrderTypeVT.LIMIT => "0"
  | OrderTypeVT.MARKET => "U"

/-- A vnpy `OrderRequest`, restricted to the fields `send_order` reads;
the price is carried as its wire string. -/
structure OrderRequest where
  symbol : String := ""
  exchange : ExchangeVT := ExchangeVT.SSE
  direction : DirectionVT := DirectionVT.LONG
  type : OrderTypeVT := OrderTypeVT.LIMIT
  volume : Nat := 0
  price : String := ""
deriving Repr, DecidableEq

/-- `str(n).rjust(6, "0")` as used for the local order reference. -/
def rjust6 (s : String) : String :=
  if s.length ≥ 6 then s
  else String.mk (List.replicate (6 - s.length) '0') ++ s

/-- Modelled from the spec: `OrderRequest.create_order_data` is vnpy framework
code (not under src/).  Per spec section 3, the optimistic local record is
created with the fields of the request, status `Submitting` and traded
volume 0. -/
def create_order_data (req : OrderRequest) (orderid : String) : OrderData :=
  { orderid := orderid
    stock_code := req.symbol
    exchange_type := (EXCHANGE_VT2UF req.exchange).getD ""
    entrust_bs := DIRECTION_VT2UF req.direction
    entrust_prop := ORDERTYPE_VT2UF req.type
    entrust_price := req.price
    volume := req.volume
    traded := 0
    status := Status.submitting }

namespace UF

/-- TdApi.send_order (uf_gateway.py lines 829-872): after the supported
exchange and order-type guards, the local id is derived from the session
number and the incremented order counter, the request id returned by the
transport send (here the oracle parameter `reqid`) is recorded against the
local id, and the optimistic order record is inserted and emitted.  Returns
the new state, the local order id ("" when a guard rejected the request),
and the emitted events. -/
def send_order (s : TdState) (req : OrderRequest) (reqid : Nat) :
    TdState × String × List Event :=
  match EXCHANGE_VT2UF req.exchange with
  | none => (s, "", [Event.log "send failed, unsupported exchange"])
  | some _ =>
    let count := s.order_count + 1
    let reference := rjust6 (toString count)
    let orderid := s.session_no ++ "_" ++ reference
    let order := create_order_data req orderid
    ({ s with order_count := count,
              reqid_orderid_map := dictInsert s.reqid_orderid_map reqid orderid,
              orders := dictInsert s.orders orderid order },
     orderid, [Event.order order])

end UF

/-- The round-robin entries of `init_query` (uf_gateway.py line 189). -/
inductive QueryFunc where
  | queryAccount
  | queryPosition
deriving Repr, DecidableEq

/-- The poll-scheduler state of `UfGateway`: the cadence counter and the
round-robin list. -/
structure GwState where
  count : Nat := 0
  query_functions : List QueryFunc := []
deriving Repr, DecidableEq

/-- UfGateway.init_query (uf_gateway.py lines 186-190): fresh scheduler. -/
def init_query : GwState :=
  { count := 0, query_functions := [QueryFunc.queryAccount, QueryFunc.queryPosition] }

/-- UfGateway.process_timer_event (uf_gateway.py lines 175-184): one timer
tick.  The counter advances; below the cadence of 2 nothing is invoked;
otherwise the counter resets, the head of the round-robin list is invoked
and rotated to the back.  (Popping an empty list would raise in Python; the
list is never empty in any state reachable from `init_query`.) -/
def process_timer_event (s : GwState) : GwState × Option QueryFunc :=
  let c := s.count + 1
  if c < 2 then ({ s with count := c }, none)
  else
    match s.query_functions with
    | [] => ({ s with count := 0 }, none)
    | f :: rest => ({ count := 0, query_functions := rest ++ [f] }, some f)

/-- Scheduler state after `n` timer ticks from the fresh scheduler. -/
def after_ticks : Nat → GwState
  | 0 => init_query
  | n + 1 => (process_timer_event (after_ticks n)).1

/-- The operation invoked on the n-th timer tick (n counted from 1). -/
def invoked_on_tick (n : Nat) : Option QueryFunc :=
  (process_timer_event (after_ticks (n - 1))).2

/-! Concrete states and rows used to settle the individual claims. -/

def c1_order : OrderData :=
  { orderid := "O1", volume := 100, traded := 0, status := Status.cancelled }

def c1_state : TdState := { orders := [("O1", c1_order)] }

def c1_row : Row :=
  { entrust_reference := "O1", entrust_status := "4", business_amount := 100,
    business_id := "T1", real_type := "0", real_status := "0" }

def c1w_order : OrderData :=
  { orderid := "O2", volume := 500, traded := 500, status := Status.allTraded }

def c1w_state : TdState := { orders := [("O2", c1w_order)] }

def c1w_row : Row :=
  { entrust_reference := "O2", entrust_type := "0", entrust_status := "2",
    entrust_amount := 500, business_amount := 0 }

def c2_order : OrderData :=
  { orderid := "O1", volume := 1000, traded := 300, status := Status.partTraded }

def c2_state : TdState := { orders := [("O1", c2_order)] }

def c2_row : Row :=
  { entrust_reference := "O1", entrust_type := "0", entrust_status := "2",
    entrust_amount := 1000, business_amount := 0 }

def c2w_row : Row :=
  { entrust_reference := "O1", entrust_status := "4", business_amount := 200,
    business_id := "T7", real_type := "0", real_status := "0" }

def c2q_row : Row :=
  { entrust_reference := "O1", entrust_status := "2", entrust_amount := 1000,
    business_amount := 0, entrust_no := "E2", report_time := "93000" }

def c2x_order : OrderData :=
  { orderid := "O1", volume := 1000, traded := 900, status := Status.partTraded }

def c2x_state : TdState := { orders := [("O1", c2x_order)] }

def c2x_row : Row :=
  { entrust_reference := "O1", entrust_status := "4", business_amount := 200,
    business_id := "T9", real_type := "0", real_status := "0" }

def c3_order : OrderData :=
  { orderid := "O1", volume := 200, traded := 0, status := Status.notTraded }

def c3_state : TdState := { orders := [("O1", c3_order)] }

def c3_row : Row :=
  { entrust_reference := "O1", entrust_status := "4", business_amount := 100,
    business_id := "T1", real_type := "0", real_status := "2" }

def c3w_row : Row :=
  { entrust_reference := "O1", entrust_status := "4", business_amount := 50,
    business_id := "T2", real_type := "0", real_status := "0" }

def c3w_qrow : Row :=
  { entrust_no := "E1", business_id := "T3", business_amount := 10 }

def c3w_state : TdState :=
  { orders := [("O1", c3_order)], sysid_localid_map := [("E1", "O1")],
    tradeids := ["T3"] }

def c4_order : OrderData :=
  { orderid := "O1", volume := 100, traded := 0, status := Status.notTraded }

def c4_state : TdState :=
  { reqid_sysid_map := [(5, "E9")], sysid_localid_map := [("E9", "O1")],
    orders := [("O1", c4_order)] }

def c4_data : List Row := [{ error_no := "1", error_info := "cancel rejected" }]

def c5_state : TdState := { reqid_orderid_map := [(7, "O1")] }

def c5_data : List Row := [{ entrust_no := "E5" }]

def c5w_order : OrderData :=
  { orderid := "O3", volume := 100, traded := 0, status := Status.submitting }

def c5w_state : TdState :=
  { reqid_orderid_map := [(9, "O3")], orders := [("O3", c5w_order)] }

def c5w_row : Row := { entrust_no := "E8" }

def c5x_order : OrderData :=
  { orderid := "O4", volume := 100, traded := 0, status := Status.submitting }

def c5x_state : TdState :=
  { reqid_orderid_map := [(11, "O4")], orders := [("O4", c5x_order)] }

def c5x_row : Row := { error_no := "0", error_info := "success" }

def c6w_req : OrderRequest :=
  { symbol := "600000", exchange := ExchangeVT.SSE, volume := 100, price := "10.5" }

def c7_data : List Row := [{ error_no := "1", error_info := "bad password" }]

def c8_state : TdState := { orders := [] }

def c8_row : Row :=
  { entrust_reference := "O1", entrust_status := "4", business_amount := 100,
    business_id := "T1", real_type := "0", real_status := "0", has_init_date := true }

def c10_order : OrderData :=
  { orderid := "O1", volume := 100, traded := 100, status := Status.allTraded }

def c10_active : OrderData :=
  { orderid := "O2", volume := 300, traded := 0, status := Status.notTraded }

def c10_state : TdState :=
  { orders := [("O1", c10_order), ("O2", c10_active)] }

def c10_skip_row : Row :=
  { entrust_reference := "O9", entrust_type := "2", entrust_status := "5" }

def c10_stale_row : Row :=
  { entrust_reference := "O1", entrust_type := "0", entrust_status := "8",
    entrust_amount := 100, business_amount := 100 }

def c10_other_row : Row :=
  { entrust_reference := "O2", entrust_type := "0", entrust_status := "4",
    entrust_amount := 300, business_amount := 100 }

theorem dictGet?_insert_self {κ α : Type} [DecidableEq κ]
    (m : List (κ × α)) (k : κ) (v : α) :
    dictGet? (dictInsert m k v) k = some v := by
  induction m with
  | nil => simp [dictInsert, dictGet?]
  | cons p rest ih =>
    by_cases h : p.1 = k
    · simp [dictInsert, dictGet?, h]
    · simp [dictInsert, dictGet?, h, ih]

theorem dictGet?_insert_ne {κ α : Type} [DecidableEq κ]
    (m : List (κ × α)) (k k' : κ) (v : α) (h : k' ≠ k) :
    dictGet? (dictInsert m k' v) k = dictGet? m k := by
  induction m with
  | nil => simp [dictInsert, dictGet?, h]
  | cons p rest ih =>
    by_cases hp : p.1 = k'
    · simp [dictInsert, dictGet?, hp, h]
    · simp [dictInsert, dictGet?, hp, ih]

/-- Claim C1, counterexample: a trade push arriving for an order whose
recorded status is already terminal (`Cancelled`, traded 0) changes both the
status (to `PartTraded`) and the traded volume (to 100) — the trade-push
handler has no terminal guard, so the claim as stated is false. -/
theorem on_trade_breaks_terminal_stickiness :
    (dictGet? c1_state.orders "O1").map (fun o => (o.status, o.traded))
        = some (Status.cancelled, 0) ∧
    (dictGet? (UF.on_trade c1_state [c1_row]).1.orders "O1").map
        (fun o => (o.status, o.traded)) = some (Status.partTraded, 100) := by
  decide

/-- Claim C2, counterexample: the traded-volume invariant fails in all three
refuted respects, each at a concrete input.  A pre-terminal order push
carrying a lower traded volume (0) than currently recorded (300) overwrites
the recorded value; an order-query reply carrying a lower traded volume (0)
likewise overwrites it; and a trade push for an order with 900 of 1000
traded adds a 200 fill, raising the traded volume to 1100, beyond the
requested volume.  So the claim as stated is false. -/
theorem traded_volume_invariant_fails :
    ((dictGet? c2_state.orders "O1").map OrderData.traded = some 300 ∧
      (dictGet? (UF.on_order c2_state [c2_row]).1.orders "O1").map OrderData.traded
        = some 0) ∧
    (dictGet? (UF.on_query_order c2_state [c2q_row]).1.orders "O1").map
        OrderData.traded = some 0 ∧
    (dictGet? (UF.on_trade c2x_state [c2x_row]).1.orders "O1").map
        (fun o => (o.traded, o.volume)) = some (1100, 1000) := by
  decide

/-- Claim C3, counterexample: a trade-push row with `real_status = "2"` and
`real_type ≠ "2"` bypasses the tradeid de-duplication set, so processing the
same row (tradeId "T1") a second time adds its fill volume to the owning
order again (100, then 200) — the claim as stated is false. -/
theorem duplicate_trade_row_changes_traded_again :
    (dictGet? (UF.on_trade c3_state [c3_row]).1.orders "O1").map OrderData.traded
        = some 100 ∧
    (dictGet? (UF.on_trade (UF.on_trade c3_state [c3_row]).1 [c3_row]).1.orders
        "O1").map OrderData.traded = some 200 := by
  decide

/-- Claim C4 (code_bug): evaluating the cancel-reply handler at a reply that
carries a venue error (`error_no = "1"`): the error branch only logs and then
falls through, so the referenced order is forced to `Cancelled` instead of
staying in its last known state (`NotTraded`).  This contradicts the
handler's own comment, which restricts the status change to successfully
cancelled orders, and the error log, which asks to re-query the latest
status. -/
theorem on_cancel_order_error_still_cancels :
    (UF.check_error c4_data).1 = true ∧
    (dictGet? c4_state.orders "O1").map OrderData.status = some Status.notTraded ∧
    (UF.on_cancel_order c4_state c4_data 5).map
        (fun p => (dictGet? p.1.orders "O1").map OrderData.status)
      = Except.ok (some Status.cancelled) :=
  ⟨by decide, by decide, by rfl⟩

/-- Claim C5, counterexample: in the UFX gateway a successful send reply
records the venue order id only in the local-to-venue direction;
`sysid_localid_map` is left untouched, so the claim that the id is recorded
into both directions of the mapping is false. -/
theorem ufx_on_send_order_missing_reverse_map :
    (UFX.on_send_order c5_state c5_data 7).map
        (fun p => (dictGet? p.1.localid_sysid_map "O1",
                   dictGet? p.1.sysid_localid_map "E5"))
      = Except.ok (some "E5", none) := by
  rfl

/-- Claim C6, counterexample: a send-order callback carrying a request id
with no recorded correlation entry raises (Python `KeyError` from
`self.reqid_orderid_map[reqid]`, embedded as `.error`) instead of being
logged and dropped, so the claim as stated is false. -/
theorem on_send_order_unknown_reqid_raises :
    UF.on_send_order ({} : TdState) [({} : Row)] 99
      = Except.error "KeyError: reqid_orderid_map" := by
  rfl

/-- Claim C7 (code_bug): evaluating the login handler at a reply that carries
a venue error and empty client id, session number and user token: the error
branch only logs and falls through, so `login_status` is still set to true
and the follow-up subscriptions and queries are still issued, contradicting
the claim (and the handler's own "login failed" log line). -/
theorem on_login_error_still_sets_login_status :
    (UF.check_error c7_data).1 = true ∧
    (UF.on_login ({} : TdState) c7_data).1.login_status = true ∧
    (UF.on_login ({} : TdState) c7_data).1.client_id = "" ∧
    Event.action "query_order" ∈ (UF.on_login ({} : TdState) c7_data).2 := by
  decide

/-- Claim C1 (amended): once an order reaches a terminal status, any
subsequent order-push batch (`on_order`) leaves its recorded entry — hence
its status and traded volume — unchanged; the trade-push handler carries no
such terminal guard (see the counterexample). -/
theorem on_order_preserves_terminal_orders :
    ∀ (s : TdState) (data : List Row) (k : String) (o : OrderData),
      dictGet? s.orders k = some o → o.is_active = false →
      dictGet? (UF.on_order s data).1.orders k = some o := by
  intro s data
  induction data generalizing s with
  | nil =>
    intro k o hk _
    simpa [UF.on_order] using hk
  | cons d rest ih =>
    intro k o hk hact
    by_cases ht : d.entrust_type = "2"
    · simpa [UF.on_order, ht] using ih s k o hk hact
    · by_cases hs : UF.stale_guard s d = true
      · simpa [UF.on_order, ht, hs] using hk
      · have href : d.entrust_reference ≠ k := by
          intro he
          apply hs
          unfold UF.stale_guard
          rw [he, hk]
          simp [hact]
        have hk2 : dictGet?
            (dictInsert s.orders d.entrust_reference (UF.row_to_order d)) k = some o := by
          rw [dictGet?_insert_ne _ _ _ _ href]
          exact hk
        have hrec := ih
          { s with orders := dictInsert s.orders d.entrust_reference (UF.row_to_order d) }
          k o hk2 hact
        simpa [UF.on_order, ht, hs] using hrec

/-- Witness for `on_order_preserves_terminal_orders` at a concrete terminal
order and a concrete stale push row. -/
theorem on_order_preserves_terminal_orders_witness :
    dictGet? (UF.on_order c1w_state [c1w_row]).1.orders "O2" = some c1w_order :=
  on_order_preserves_terminal_orders c1w_state [c1w_row] "O2" c1w_order
    (by decide) (by decide)

theorem trade_order_update_tradeids (s : TdState) (d : Row) :
    (UF.trade_order_update s d).1.tradeids = s.tradeids := by
  unfold UF.trade_order_update
  split <;> simp

theorem trade_order_update_traded_mono (s : TdState) (d : Row) (k : String)
    (o : OrderData) (hk : dictGet? s.orders k = some o) :
    ∃ o2, dictGet? (UF.trade_order_update s d).1.orders k = some o2 ∧
      o.traded ≤ o2.traded := by
  cases hlook : dictGet? s.orders d.entrust_reference with
  | none =>
    exact ⟨o, by simp [UF.trade_order_update, hlook, hk], le_refl _⟩
  | some ord =>
    by_cases href : d.entrust_reference = k
    · subst href
      rw [hk] at hlook
      injection hlook with ho
      subst ho
      by_cases hrt : d.real_type = "2"
      · exact ⟨{ o with status := STATUS_UF2VT d.entrust_status },
          by simp [UF.trade_order_update, hk, hrt, dictGet?_insert_self], le_refl _⟩
      · refine ⟨{ o with
            status := STATUS_UF2VT d.entrust_status
            traded := o.traded + d.business_amount }, ?_, Nat.le_add_right _ _⟩
        simp [UF.trade_order_update, hk, hrt, dictGet?_insert_self]
    · refine ⟨o, ?_, le_refl _⟩
      simp [UF.trade_order_update, hlook, dictGet?_insert_ne _ _ _ _ href, hk]

theorem on_trade_row_traded_mono (s : TdState) (d : Row) (k : String)
    (o : OrderData) (hk : dictGet? s.orders k = some o) :
    ∃ o2, dictGet? (UF.on_trade_row s d).1.orders k = some o2 ∧
      o.traded ≤ o2.traded := by
  by_cases hf : d.real_type ≠ "2" ∧ d.real_status ≠ "2"
  · by_cases hmem : d.business_id ∈ s.tradeids
    · refine ⟨o, ?_, le_refl _⟩
      simpa [UF.on_trade_row, hf.1, hf.2, hmem] using hk
    · obtain ⟨o2, h2, le2⟩ := trade_order_update_traded_mono
        { s with tradeids := d.business_id :: s.tradeids } d k o hk
      refine ⟨o2, ?_, le2⟩
      simpa [UF.on_trade_row, hf.1, hf.2, hmem] using h2
  · obtain ⟨o2, h2, le2⟩ := trade_order_update_traded_mono s d k o hk
    refine ⟨o2, ?_, le2⟩
    simpa [UF.on_trade_row, hf] using h2

/-- Claim C2 (amended): across any applied trade-push batch, every recorded
order keeps a cumulative traded volume at least its previous value (each
applied fill adds a non-negative amount); order pushes and order-query
replies instead overwrite the recorded traded volume with the incoming
value, which may be lower, and a trade push can raise the traded volume
beyond the requested volume (the counterexample exhibits all three failing
directions). -/
theorem on_trade_traded_monotone :
    ∀ (s : TdState) (data : List Row) (k : String) (o : OrderData),
      dictGet? s.orders k = some o →
      ∃ o2, dictGet? (UF.on_trade s data).1.orders k = some o2 ∧
        o.traded ≤ o2.traded := by
  intro s data
  induction data generalizing s with
  | nil =>
    intro k o hk
    exact ⟨o, by simpa [UF.on_trade] using hk, le_refl _⟩
  | cons d rest ih =>
    intro k o hk
    obtain ⟨o1, h1, le1⟩ := on_trade_row_traded_mono s d k o hk
    obtain ⟨o2, h2, le2⟩ := ih (UF.on_trade_row s d).1 k o1 h1
    exact ⟨o2, by simpa [UF.on_trade] using h2, le_trans le1 le2⟩

/-- Witness for `on_trade_traded_monotone` at a concrete partially traded
order and a concrete fill push. -/
theorem on_trade_traded_monotone_witness :
    ∃ o2, dictGet? (UF.on_trade c2_state [c2w_row]).1.orders "O1" = some o2 ∧
      c2_order.traded ≤ o2.traded :=
  on_trade_traded_monotone c2_state [c2w_row] "O1" c2_order (by decide)

/-- Claim C3 (amended): a trade row passing the fill filter of the push
handler (`real_type` and `real_status` both different from "2") is entered
into the de-duplication set, and processing it a second time through the
push handler changes nothing and emits nothing; the trade-query handler is
likewise a no-op (beyond its closing log) on an already de-duplicated
tradeid.  A push row with `real_status = "2"` and `real_type` different from
"2" bypasses the de-duplication set and re-applies its order update on every
processing (see the counterexample). -/
theorem on_trade_duplicate_tradeid_noop :
    (∀ (s : TdState) (d : Row), d.real_type ≠ "2" → d.real_status ≠ "2" →
      d.business_id ∈ (UF.on_trade s [d]).1.tradeids ∧
      UF.on_trade (UF.on_trade s [d]).1 [d] = ((UF.on_trade s [d]).1, [])) ∧
    (∀ (s : TdState) (d : Row) (oid : String), d.error_no = "" →
      dictGet? s.sysid_localid_map d.entrust_no = some oid →
      d.business_id ∈ s.tradeids →
      UF.on_query_trade s [d] = Except.ok (s, [Event.log "query trade success"])) := by
  constructor
  · intro s d h1 h2
    by_cases hmem : d.business_id ∈ s.tradeids
    · have hrow : UF.on_trade_row s d = (s, []) := by
        simp [UF.on_trade_row, h1, h2, hmem]
      have hfirst : UF.on_trade s [d] = (s, []) := by
        simp [UF.on_trade, hrow]
      rw [hfirst]
      exact ⟨hmem, by rw [hfirst]⟩
    · have hstate : (UF.on_trade s [d]).1.tradeids = d.business_id :: s.tradeids := by
        simp [UF.on_trade, UF.on_trade_row, h1, h2, hmem, trade_order_update_tradeids]
      have hmem2 : d.business_id ∈ (UF.on_trade s [d]).1.tradeids := by
        rw [hstate]
        exact List.mem_cons_self _ _
      refine ⟨hmem2, ?_⟩
      have h3 : (UF.on_trade s [d]).1 = (UF.on_trade_row s d).1 := by
        simp [UF.on_trade]
      have hrow2 : UF.on_trade_row (UF.on_trade s [d]).1 d = ((UF.on_trade s [d]).1, []) := by
        simp [UF.on_trade_row, h1, h2, hmem2]
      rw [h3] at hrow2
      rw [h3]
      simp [UF.on_trade, hrow2]
  · intro s d oid herr hsys hmem
    simp [UF.on_query_trade, UF.check_error, herr, UF.on_query_trade_rows, hsys, hmem]

/-- Witness for `on_trade_duplicate_tradeid_noop`: both parts applied at
concrete rows — a normal fill push processed twice, and a trade-query row
whose tradeid is already de-duplicated. -/
theorem on_trade_duplicate_tradeid_noop_witness :
    (c3w_row.business_id ∈ (UF.on_trade c3_state [c3w_row]).1.tradeids ∧
      UF.on_trade (UF.on_trade c3_state [c3w_row]).1 [c3w_row]
        = ((UF.on_trade c3_state [c3w_row]).1, [])) ∧
    UF.on_query_trade c3w_state [c3w_qrow]
      = Except.ok (c3w_state, [Event.log "query trade success"]) :=
  ⟨on_trade_duplicate_tradeid_noop.1 c3_state c3w_row (by decide) (by decide),
   on_trade_duplicate_tradeid_noop.2 c3w_state c3w_qrow "O1"
     (by decide) (by decide) (by decide)⟩

/-- Claim C5 (amended): for every send-order reply: in the UF gateway, a
first row whose `error_no` is non-empty and different from "0" forces the
referenced order to `Rejected`, while an empty `error_no` records the venue
order id into both directions of the local-id/venue-id mapping and changes
nothing else (the order table, hence the `Submitting` status, is untouched);
in the UFX gateway, any non-empty `error_no` — including the success code
"0", because the success comparison is a string-to-integer comparison that
never holds — forces the order to `Rejected`, while an empty `error_no`
records the venue id only into the local-to-venue direction (see the
counterexample). -/
theorem on_send_order_ack_amended :
    (∀ (s : TdState) (reqid : Nat) (oid : String) (d : Row) (rest : List Row),
      dictGet? s.reqid_orderid_map reqid = some oid → d.error_no = "" →
      UF.on_send_order s (d :: rest) reqid =
        Except.ok ({ s with
          localid_sysid_map := dictInsert s.localid_sysid_map oid d.entrust_no,
          sysid_localid_map := dictInsert s.sysid_localid_map d.entrust_no oid },
          [])) ∧
    (∀ (s : TdState) (reqid : Nat) (oid : String) (d : Row) (rest : List Row)
        (o : OrderData),
      dictGet? s.reqid_orderid_map reqid = some oid →
      d.error_no ≠ "" → d.error_no ≠ "0" →
      dictGet? s.orders oid = some o →
      UF.on_send_order s (d :: rest) reqid =
        Except.ok ({ s with
          orders := dictInsert s.orders oid { o with status := Status.rejected } },
          [Event.log (error_log_msg d), Event.log "send order failed",
           Event.order { o with status := Status.rejected }])) ∧
    (∀ (s : TdState) (reqid : Nat) (oid : String) (d : Row) (rest : List Row),
      dictGet? s.reqid_orderid_map reqid = some oid → d.error_no = "" →
      UFX.on_send_order s (d :: rest) reqid =
        Except.ok ({ s with
          localid_sysid_map := dictInsert s.localid_sysid_map oid d.entrust_no },
          [])) ∧
    (∀ (s : TdState) (reqid : Nat) (oid : String) (d : Row) (rest : List Row)
        (o : OrderData),
      dictGet? s.reqid_orderid_map reqid = some oid →
      d.error_no ≠ "" →
      dictGet? s.orders oid = some o →
      UFX.on_send_order s (d :: rest) reqid =
        Except.ok ({ s with
          orders := dictInsert s.orders oid { o with status := Status.rejected } },
          [Event.log (error_log_msg d), Event.log "send order failed",
           Event.order { o with status := Status.rejected }])) := by
  refine ⟨?_, ?_, ?_, ?_⟩
  · intro s reqid oid d rest hmap herr
    simp [UF.on_send_order, hmap, UF.check_error, herr]
  · intro s reqid oid d rest o hmap h1 h2 ho
    simp [UF.on_send_order, hmap, UF.check_error, h1, h2, ho]
  · intro s reqid oid d rest hmap herr
    simp [UFX.on_send_order, hmap, UFX.check_error, herr]
  · intro s reqid oid d rest o hmap herr ho
    simp [UFX.on_send_order, hmap, UFX.check_error, herr, ho]

/-- Witness for `on_send_order_ack_amended`: the success branch of the UF
gateway at a concrete pending order, and the UFX error branch at a reply
carrying the success code "0" in `error_no`, which UFX still rejects. -/
theorem on_send_order_ack_amended_witness :
    UF.on_send_order c5w_state [c5w_row] 9 =
      Except.ok ({ c5w_state with
        localid_sysid_map := dictInsert c5w_state.localid_sysid_map "O3" "E8",
        sysid_localid_map := dictInsert c5w_state.sysid_localid_map "E8" "O3" },
        []) ∧
    UFX.on_send_order c5x_state [c5x_row] 11 =
      Except.ok ({ c5x_state with
        orders := dictInsert c5x_state.orders "O4"
          { c5x_order with status := Status.rejected } },
        [Event.log (error_log_msg c5x_row), Event.log "send order failed",
         Event.order { c5x_order with status := Status.rejected }]) :=
  ⟨on_send_order_ack_amended.1 c5w_state 9 "O3" c5w_row [] (by decide) (by decide),
   on_send_order_ack_amended.2.2.2 c5x_state 11 "O4" c5x_row [] c5x_order
     (by decide) (by decide) (by decide)⟩

/-- Claim C6 (amended): the request id recorded by `send_order` resolves in
the matching callback to exactly the business key (local order id) recorded
at send time; a callback carrying a request id with no recorded correlation
entry raises a KeyError (embedded as `.error`, see the counterexample)
rather than being logged and dropped. -/
theorem correlation_resolution_amended :
    (∀ (s : TdState) (req : OrderRequest) (reqid : Nat),
      EXCHANGE_VT2UF req.exchange ≠ none →
      dictGet? (UF.send_order s req reqid).1.reqid_orderid_map reqid
        = some (UF.send_order s req reqid).2.1) ∧
    (∀ (s : TdState) (data : List Row) (reqid : Nat),
      dictGet? s.reqid_orderid_map reqid = none →
      UF.on_send_order s data reqid
        = Except.error "KeyError: reqid_orderid_map") ∧
    (∀ (s : TdState) (data : List Row) (reqid : Nat),
      dictGet? s.reqid_sysid_map reqid = none →
      UF.on_cancel_order s data reqid
        = Except.error "KeyError: reqid_sysid_map") := by
  refine ⟨?_, ?_, ?_⟩
  · intro s req reqid hex
    cases hx : EXCHANGE_VT2UF req.exchange with
    | none => exact absurd hx hex
    | some code => simp [UF.send_order, hx, dictGet?_insert_self]
  · intro s data reqid h
    simp [UF.on_send_order, h]
  · intro s data reqid h
    simp [UF.on_cancel_order, h]

/-- Witness for `correlation_resolution_amended`: the recorded request id 42
of a concrete send resolves to the freshly generated local order id. -/
theorem correlation_resolution_amended_witness :
    dictGet? (UF.send_order ({} : TdState) c6w_req 42).1.reqid_orderid_map 42
      = some (UF.send_order ({} : TdState) c6w_req 42).2.1 :=
  correlation_resolution_amended.1 ({} : TdState) c6w_req 42 (by decide)

/-- Claim C8 (confirmed): every non-empty batch delivered on the combined
push function code is routed in its entirety to exactly one handler; when
the date-like `init_date` column is present (tested on the representative
last row, hence on every row of a schema-homogeneous batch) the whole batch
goes to the trade handler, when it is absent the whole batch goes to the
order handler — no batch is split between the two. -/
theorem on_return_routes_whole_batch :
    ∀ (s : TdState) (data : List Row), data ≠ [] →
      (UF.on_return s data = Except.ok (UF.on_order s data) ∨
       UF.on_return s data = Except.ok (UF.on_trade s data)) ∧
      ((∀ r ∈ data, r.has_init_date = false) →
        UF.on_return s data = Except.ok (UF.on_order s data)) ∧
      ((∀ r ∈ data, r.has_init_date = true) →
        UF.on_return s data = Except.ok (UF.on_trade s data)) := by
  intro s data hne
  have hd : data.getLast? = some (data.getLast hne) :=
    List.getLast?_eq_getLast_of_ne_nil hne
  have hmem : data.getLast hne ∈ data := List.getLast_mem hne
  refine ⟨?_, ?_, ?_⟩
  · by_cases hid : (data.getLast hne).has_init_date
    · right
      simp [UF.on_return, hd, hid]
    · left
      simp [UF.on_return, hd, hid]
  · intro hall
    have h0 : (data.getLast hne).has_init_date = false := hall _ hmem
    simp [UF.on_return, hd, h0]
  · intro hall
    have h1 : (data.getLast hne).has_init_date = true := hall _ hmem
    simp [UF.on_return, hd, h1]

/-- Witness for `on_return_routes_whole_batch`: a concrete one-row batch
carrying `init_date` is routed to the trade handler. -/
theorem on_return_routes_whole_batch_witness :
    UF.on_return c8_state [c8_row] = Except.ok (UF.on_trade c8_state [c8_row]) :=
  ((on_return_routes_whole_batch c8_state [c8_row] (by decide)).2.2) (by decide)

theorem after_ticks_char (n : Nat) :
    after_ticks n =
      { count := n % 2,
        query_functions :=
          if (n / 2) % 2 = 0 then [QueryFunc.queryAccount, QueryFunc.queryPosition]
          else [QueryFunc.queryPosition, QueryFunc.queryAccount] } := by
  induction n with
  | zero => simp [after_ticks, init_query]
  | succ n ih =>
    rw [after_ticks, ih]
    rcases Nat.mod_two_eq_zero_or_one n with h | h
    · have h1 : (n + 1) % 2 = 1 := by omega
      have h2 : (n + 1) / 2 = n / 2 := by omega
      simp [process_timer_event, h, h1, h2]
    · have h1 : (n + 1) % 2 = 0 := by omega
      by_cases h2 : (n / 2) % 2 = 0
      · have h3 : ((n + 1) / 2) % 2 = 1 := by omega
        simp [process_timer_event, h, h1, h2, h3]
      · have h3 : ((n + 1) / 2) % 2 = 0 := by omega
        simp [process_timer_event, h, h1, h2, h3]

/-- Claim C9 (confirmed): from the fresh scheduler with round-robin list
[query_account, query_position] and cadence 2, query_account is invoked on
tick 2, query_position on tick 4, query_account again on tick 6; no
operation is invoked on any odd tick and exactly one operation is invoked
on every even tick (query_account when the tick is 2 mod 4, query_position
when it is 0 mod 4). -/
theorem poll_cadence :
    invoked_on_tick 2 = some QueryFunc.queryAccount ∧
    invoked_on_tick 4 = some QueryFunc.queryPosition ∧
    invoked_on_tick 6 = some QueryFunc.queryAccount ∧
    (∀ n, 1 ≤ n → n % 2 = 1 → invoked_on_tick n = none) ∧
    (∀ n, 1 ≤ n → n % 2 = 0 →
      ∃ f, invoked_on_tick n = some f ∧
        (n % 4 = 2 → f = QueryFunc.queryAccount) ∧
        (n % 4 = 0 → f = QueryFunc.queryPosition)) := by
  refine ⟨by decide, by decide, by decide, ?_, ?_⟩
  · intro n h1 h2
    unfold invoked_on_tick
    rw [after_ticks_char]
    have hc : (n - 1) % 2 = 0 := by omega
    simp [process_timer_event, hc]
  · intro n h1 h2
    unfold invoked_on_tick
    rw [after_ticks_char]
    have hc : (n - 1) % 2 = 1 := by omega
    by_cases h4 : ((n - 1) / 2) % 2 = 0
    · refine ⟨QueryFunc.queryAccount, ?_, fun _ => rfl, ?_⟩
      · simp [process_timer_event, hc, h4]
      · intro h0
        exfalso
        omega
    · have h4e : ((n - 1) / 2) % 2 = 1 := by omega
      refine ⟨QueryFunc.queryPosition, ?_, ?_, fun _ => rfl⟩
      · simp [process_timer_event, hc, h4e]
      · intro h0
        exfalso
        omega

/-- Witness for `poll_cadence`: the general even-tick clause applied to the
concrete tick 8, yielding query_position. -/
theorem poll_cadence_witness : invoked_on_tick 8 = some QueryFunc.queryPosition := by
  obtain ⟨f, hf, _, h4⟩ := poll_cadence.2.2.2.2 8 (by decide) (by decide)
  rw [hf, h4 (by decide)]

/-- Claim C10 (confirmed): in the order-push handler, a row (with the
cancel-type flag unset) that references a locally known, no-longer-active
order makes the handler return immediately: that row and every later row of
the batch — whatever orders they reference — are not applied and emit no
event, so the batch result equals the result of the preceding prefix alone;
a row whose cancel-type flag `entrust_type = "2"` is instead skipped
individually and processing continues with the next row. -/
theorem on_order_truncation_and_skip :
    (∀ (s : TdState) (pre : List Row) (d : Row) (rest : List Row),
      d.entrust_type ≠ "2" →
      (∃ o, dictGet? (UF.on_order s pre).1.orders d.entrust_reference = some o ∧
        o.is_active = false) →
      UF.on_order s (pre ++ d :: rest) = UF.on_order s pre) ∧
    (∀ (s : TdState) (d : Row) (rest : List Row),
      d.entrust_type = "2" →
      UF.on_order s (d :: rest) = UF.on_order s rest) := by
  constructor
  · intro s pre
    induction pre generalizing s with
    | nil =>
      intro d rest ht hex
      obtain ⟨o, ho, hact⟩ := hex
      have ho2 : dictGet? s.orders d.entrust_reference = some o := ho
      have hstale : UF.stale_guard s d = true := by
        unfold UF.stale_guard
        rw [ho2]
        simp [hact]
      simp [UF.on_order, ht, hstale]
    | cons p ps ih =>
      intro d rest ht hex
      by_cases hp : p.entrust_type = "2"
      · have hex2 : ∃ o,
            dictGet? (UF.on_order s ps).1.orders d.entrust_reference = some o ∧
              o.is_active = false := by
          simpa [UF.on_order, hp] using hex
        have hih := ih s d rest ht hex2
        simpa [UF.on_order, hp] using hih
      · by_cases hs : UF.stale_guard s p = true
        · simp [UF.on_order, hp, hs]
        · set s2 : TdState := { s with orders := dictInsert s.orders p.entrust_reference (UF.row_to_order p) } with hs2
          have hex2 : ∃ o,
              dictGet? (UF.on_order s2 ps).1.orders d.entrust_reference = some o ∧
                o.is_active = false := by
            simpa [UF.on_order, hp, hs, hs2] using hex
          have hih := ih s2 d rest ht hex2
          simp [UF.on_order, hp, hs, hs2, hih]
  · intro s d rest h
    simp [UF.on_order, h]

/-- Witness for `on_order_truncation_and_skip`: a concrete batch whose first
row is a cancel-type row (skipped), whose second row references the known
inactive order O1 (truncates), and whose third row references the active
order O2 yet is dropped with the remainder of the batch. -/
theorem on_order_truncation_and_skip_witness :
    UF.on_order c10_state ([c10_skip_row] ++ c10_stale_row :: [c10_other_row])
      = UF.on_order c10_state [c10_skip_row] :=
  on_order_truncation_and_skip.1 c10_state [c10_skip_row] c10_stale_row
    [c10_other_row] (by decide) ⟨c10_order, by decide, by decide⟩
